import Mathlib

/-!
# Verification of the wallapop-agent normalization / hash-resolution layer

Shallow embedding of the core logic of the `wallapop-agent` repository:

* `src/src/client.ts` (`WallapopClient.search` query construction,
  `simplifySearchItem`, `simplifyItemDetails`, `getItemHash`, `chatUrl`),
* `src/src/browser.ts` (`buildChatInstructions`),
* `src/src/server.ts` (the `POST /api/search-and-contact` composite handler),
* `src/unnamed/part_001` (the legacy JavaScript client, whose
  `simplifyItemDetails` differs from the TypeScript one).

JavaScript dynamic values coming from JSON are modelled by the inductive
type `JVal`; the JavaScript value `undefined` (absent property) is
modelled as `none` at type `Option JVal`.  JavaScript numbers are
modelled as rationals (the claims under study never exercise
floating-point rounding).  Code that can throw a `TypeError`
(member access on `null`/`undefined`) or a JavaScript exception is
modelled in `Except`.
-/

set_option maxRecDepth 10000

/-- A JSON / JavaScript value.  `undefined` is represented separately as
`none : Option JVal` since it is not a JSON value. -/
inductive JVal where
  | null : JVal
  | bool : Bool → JVal
  | num : ℚ → JVal
  | str : String → JVal
  | arr : List JVal → JVal
  | obj : List (String × JVal) → JVal

/-- Is this value the JSON `null`? -/
def JVal.isNull : JVal → Bool
  | JVal.null => true
  | _ => false

/-- Opening-brace character, kept out of string literals. -/
def lbrace : Char := Char.ofNat 123

/-- Closing-brace character, kept out of string literals. -/
def rbrace : Char := Char.ofNat 125

/-- Lookup of a property in a JavaScript object literal: with duplicate
keys the later assignment wins, as in JavaScript. -/
def objLookup : List (String × JVal) → String → Option JVal
  | [], _ => none
  | (k, v) :: rest, key =>
    match objLookup rest key with
    | some r => some r
    | none => if k = key then some v else none

/-- JavaScript truthiness of a possibly-`undefined` value
(falsy: `undefined`, `null`, `false`, `0`, the empty string). -/
def jsTruthy : Option JVal → Bool
  | none => false
  | some JVal.null => false
  | some (JVal.bool b) => b
  | some (JVal.num q) => if q = 0 then false else true
  | some (JVal.str s) => if s = "" then false else true
  | some (JVal.arr _) => true
  | some (JVal.obj _) => true

/-- Optional-chaining property access `x?.k`: `undefined` and `null`
short-circuit to `undefined`; property access on a primitive yields
`undefined`; on an object it is the property lookup. -/
def jGet : Option JVal → String → Option JVal
  | some (JVal.obj fs), k => objLookup fs k
  | _, _ => none

/-- Optional-chaining index access `x?.[n]`. -/
def jIdx : Option JVal → Nat → Option JVal
  | some (JVal.arr l), n => l.get? n
  | some (JVal.obj fs), n => objLookup fs (toString n)
  | some (JVal.str s), n => (s.toList.get? n).map (fun c => JVal.str (String.mk [c]))
  | _, _ => none

/-- The JavaScript `||` operator with a known right operand:
`a || b` is `a`'s value when `a` is truthy and `b` otherwise. -/
def jsOrJ (a : Option JVal) (b : JVal) : JVal :=
  match a with
  | some v => if jsTruthy (some v) then v else b
  | none => b

/-- The JavaScript `??` (nullish-coalescing) operator:
`a ?? b` is `a` unless `a` is `null` or `undefined`. -/
def jsNullish (a b : Option JVal) : Option JVal :=
  match a with
  | some v => if v.isNull then b else some v
  | none => b

/-- The JavaScript `.length` read used by `(raw.images || []).length`:
defined on arrays and strings, `undefined` on other values. -/
def jsLength : Option JVal → Option JVal
  | some (JVal.arr l) => some (JVal.num l.length)
  | some (JVal.str s) => some (JVal.num s.length)
  | _ => none

mutual

/-- JavaScript `String(v)` / template-literal coercion of a defined value.
Decimal formatting of non-integral numbers is approximated (no claim
exercises it); the claims only coerce strings. -/
def jsValToString : JVal → String
  | JVal.null => "null"
  | JVal.bool true => "true"
  | JVal.bool false => "false"
  | JVal.num q =>
    if q.den = 1 then toString q.num
    else toString q.num ++ "/" ++ toString q.den
  | JVal.str s => s
  | JVal.arr l => jsArrJoin l true
  | JVal.obj _ => "[object Object]"

/-- `Array.prototype.toString`: elements joined by commas, with `null`
elements rendered empty. -/
def jsArrJoin : List JVal → Bool → String
  | [], _ => ""
  | v :: rest, first =>
    (if first then "" else ",") ++
      (match v with
       | JVal.null => ""
       | w => jsValToString w) ++ jsArrJoin rest false

end

/-- Template-literal coercion of a possibly-`undefined` value. -/
def jsToString : Option JVal → String
  | none => "undefined"
  | some v => jsValToString v

/-! ## A model of `JSON.parse`

Recursive-descent parser for the JSON grammar accepted by
`JSON.parse`, with explicit fuel (the fuel supplied by `parseJson` is
always sufficient: every recursive call consumes input or descends
into it). -/

/-- Whitespace accepted between JSON tokens (space, tab, LF, CR). -/
def jsonWs (c : Char) : Bool :=
  c = ' ' || c = '\t' || c = '\n' || c = '\r'

/-- Drop leading JSON whitespace. -/
def skipWs : List Char → List Char
  | c :: cs => if jsonWs c then skipWs cs else c :: cs
  | [] => []

/-- Consume an expected literal string. -/
def stripLit : List Char → List Char → Option (List Char)
  | [], cs => some cs
  | p :: ps, c :: cs => if c = p then stripLit ps cs else none
  | _ :: _, [] => none

/-- Hexadecimal digit value. -/
def hexVal (c : Char) : Option Nat :=
  if '0' ≤ c ∧ c ≤ '9' then some (c.toNat - '0'.toNat)
  else if 'a' ≤ c ∧ c ≤ 'f' then some (c.toNat - 'a'.toNat + 10)
  else if 'A' ≤ c ∧ c ≤ 'F' then some (c.toNat - 'A'.toNat + 10)
  else none

/-- Decode a `\uXXXX` escape.  Lone UTF-16 surrogate halves are not
representable as Lean characters and are replaced by U+FFFD (this keeps
parse success faithful; no claim inspects such strings). -/
def uEscChar (n : Nat) : Char :=
  if h : n.isValidChar then Char.ofNatAux n h else Char.ofNat 0xFFFD

/-- Body of a JSON string literal (after the opening quote). -/
def parseStringAux : Nat → List Char → List Char → Option (String × List Char)
  | 0, _, _ => none
  | _ + 1, acc, '\"' :: cs => some (String.mk acc.reverse, cs)
  | fuel + 1, acc, '\\' :: e :: cs =>
    match e with
    | '\"' => parseStringAux fuel ('\"' :: acc) cs
    | '\\' => parseStringAux fuel ('\\' :: acc) cs
    | '/' => parseStringAux fuel ('/' :: acc) cs
    | 'b' => parseStringAux fuel (Char.ofNat 8 :: acc) cs
    | 'f' => parseStringAux fuel (Char.ofNat 12 :: acc) cs
    | 'n' => parseStringAux fuel ('\n' :: acc) cs
    | 'r' => parseStringAux fuel ('\r' :: acc) cs
    | 't' => parseStringAux fuel ('\t' :: acc) cs
    | 'u' =>
      match cs with
      | h1 :: h2 :: h3 :: h4 :: cs' =>
        match hexVal h1, hexVal h2, hexVal h3, hexVal h4 with
        | some a, some b, some c, some d =>
          parseStringAux fuel (uEscChar (((a * 16 + b) * 16 + c) * 16 + d) :: acc) cs'
        | _, _, _, _ => none
      | _ => none
    | _ => none
  | fuel + 1, acc, c :: cs =>
    if c.toNat < 0x20 then none else parseStringAux fuel (c :: acc) cs
  | _ + 1, _, [] => none

/-- A JSON string literal, starting at the opening quote. -/
def parseJsonString : List Char → Option (String × List Char)
  | '\"' :: cs => parseStringAux (cs.length + 1) [] cs
  | _ => none

/-- Value of a decimal digit sequence. -/
def digitsToNat (ds : List Char) : Nat :=
  ds.foldl (fun acc c => acc * 10 + (c.toNat - '0'.toNat)) 0

/-- A JSON number literal: `-? int frac? exp?`. -/
def parseJsonNumber (cs : List Char) : Option (ℚ × List Char) :=
  let (sign, cs1) : ℚ × List Char :=
    match cs with
    | '-' :: rest => (-1, rest)
    | _ => (1, cs)
  let (intDigits, cs2) := cs1.span Char.isDigit
  match intDigits with
  | [] => none
  | d :: ds =>
    if d = '0' ∧ ds ≠ [] then none
    else
      let intPart : ℚ := (digitsToNat intDigits : ℚ)
      let (fracPart, cs3) : ℚ × List Char :=
        match cs2 with
        | '.' :: rest =>
          let (fds, rest') := rest.span Char.isDigit
          ((digitsToNat fds : ℚ) / (10 : ℚ) ^ fds.length, rest')
        | _ => (0, cs2)
      let fracOk : Bool :=
        match cs2 with
        | '.' :: rest => !(rest.takeWhile Char.isDigit).isEmpty
        | _ => true
      let (expPart, cs4, expOk) : ℤ × List Char × Bool :=
        match cs3 with
        | 'e' :: rest | 'E' :: rest =>
          let (esign, rest1) : ℤ × List Char :=
            match rest with
            | '+' :: r => (1, r)
            | '-' :: r => (-1, r)
            | _ => (1, rest)
          let (eds, rest2) := rest1.span Char.isDigit
          (esign * (digitsToNat eds : ℤ), rest2, !eds.isEmpty)
        | _ => (0, cs3, true)
      if fracOk ∧ expOk then
        some (sign * (intPart + fracPart) * (10 : ℚ) ^ expPart, cs4)
      else none

mutual

/-- A JSON value (no leading whitespace). -/
def parseVal : Nat → List Char → Option (JVal × List Char)
  | 0, _ => none
  | fuel + 1, cs =>
    match cs with
    | 'n' :: cs' => (stripLit ['u', 'l', 'l'] cs').map (fun r => (JVal.null, r))
    | 't' :: cs' => (stripLit ['r', 'u', 'e'] cs').map (fun r => (JVal.bool true, r))
    | 'f' :: cs' => (stripLit ['a', 'l', 's', 'e'] cs').map (fun r => (JVal.bool false, r))
    | '\"' :: _ => (parseJsonString cs).map (fun p => (JVal.str p.1, p.2))
    | '[' :: cs' =>
      match skipWs cs' with
      | ']' :: rest => some (JVal.arr [], rest)
      | cs'' => parseElems fuel [] cs''
    | c :: cs' =>
      if c = lbrace then
        match skipWs cs' with
        | d :: rest =>
          if d = rbrace then some (JVal.obj [], rest)
          else parseMembers fuel [] (d :: rest)
        | [] => none
      else if c = '-' ∨ c.isDigit then
        (parseJsonNumber cs).map (fun p => (JVal.num p.1, p.2))
      else none
    | [] => none

/-- Comma-separated array elements, first element at head. -/
def parseElems : Nat → List JVal → List Char → Option (JVal × List Char)
  | 0, _, _ => none
  | fuel + 1, acc, cs =>
    match parseVal fuel cs with
    | some (v, rest) =>
      match skipWs rest with
      | ',' :: rest' => parseElems fuel (v :: acc) (skipWs rest')
      | ']' :: rest' => some (JVal.arr (v :: acc).reverse, rest')
      | _ => none
    | none => none

/-- Comma-separated object members, first member at head. -/
def parseMembers : Nat → List (String × JVal) → List Char → Option (JVal × List Char)
  | 0, _, _ => none
  | fuel + 1, acc, cs =>
    match parseJsonString (skipWs cs) with
    | some (k, rest) =>
      match skipWs rest with
      | ':' :: rest' =>
        match parseVal fuel (skipWs rest') with
        | some (v, rest'') =>
          match skipWs rest'' with
          | ',' :: rest3 => parseMembers fuel ((k, v) :: acc) rest3
          | d :: rest3 =>
            if d = rbrace then some (JVal.obj ((k, v) :: acc).reverse, rest3)
            else none
          | [] => none
        | none => none
      | _ => none
    | none => none

end

/-- Model of `JSON.parse`: parses a complete JSON text, rejecting
trailing garbage. -/
def parseJson (s : String) : Option JVal :=
  let cs := skipWs s.toList
  match parseVal (2 * s.length + 16) cs with
  | some (j, rest) => if skipWs rest = [] then some j else none
  | none => none

/-! ## Error taxonomy (spec section 7)

The source throws plain JavaScript `Error`s; the spec classifies the
failures of `getItemHash` after a successful page fetch as
`HashNotFoundError`.  `HashFailure` records which of the extraction
steps failed. -/

/-- Which step of hash extraction failed. -/
inductive HashFailure where
  | tagMissing : HashFailure
  | invalidJson : HashFailure
  | idMissing : HashFailure
deriving DecidableEq, Repr

/-- The error taxonomy of the system (spec section 7). -/
inductive ApiError where
  | upstream : ℤ → String → ApiError
  | hashNotFound : HashFailure → ApiError
  | validation : String → ApiError
deriving DecidableEq, Repr

/-! ## Hash resolution (`WallapopClient.getItemHash`) -/

/-- Whitespace class of the JavaScript regular-expression escape `\s`. -/
def jsRegexWs (c : Char) : Bool :=
  c = ' ' || c = '\t' || c = '\n' || c = '\r' ||
  c.toNat = 11 || c.toNat = 12 || c.toNat = 0xA0 || c.toNat = 0x1680 ||
  (0x2000 ≤ c.toNat && c.toNat ≤ 0x200A) ||
  c.toNat = 0x2028 || c.toNat = 0x2029 || c.toNat = 0x202F ||
  c.toNat = 0x205F || c.toNat = 0x3000 || c.toNat = 0xFEFF

/-- Consume one or more regex-whitespace characters (`\s+`). -/
def ws1 (cs : List Char) : Option (List Char) :=
  let (w, rest) := cs.span jsRegexWs
  if w.isEmpty then none else some rest

/-- Match the pattern
`<script\s+id="__NEXT_DATA__"\s+type="application\/json">([^<]+)<\/script>`
at the head of the input, returning the capture group. -/
def matchTagAt (cs : List Char) : Option String := do
  let cs ← stripLit "<script".toList cs
  let cs ← ws1 cs
  let cs ← stripLit "id=\"__NEXT_DATA__\"".toList cs
  let cs ← ws1 cs
  let cs ← stripLit "type=\"application/json\">".toList cs
  let (cap, cs) := cs.span (fun c => c ≠ '<')
  if cap.isEmpty then none
  else do
    let _ ← stripLit "</script>".toList cs
    some (String.mk cap)

/-- Leftmost match of the `__NEXT_DATA__` script-tag pattern in a list
of characters. -/
def extractScan : List Char → Option String
  | [] => matchTagAt []
  | c :: rest =>
    match matchTagAt (c :: rest) with
    | some s => some s
    | none => extractScan rest

/-- `html.match(/<script\s+id="__NEXT_DATA__"\s+type="application\/json">([^<]+)<\/script>/)?.[1]`:
the capture group of the leftmost match, if any. -/
def extractNextData (html : String) : Option String :=
  extractScan html.toList

/-- The fixed path `nextData?.props?.pageProps?.item?.id`. -/
def nextDataPath (j : JVal) : Option JVal :=
  jGet (jGet (jGet (jGet (some j) "props") "pageProps") "item") "id"

/-- The pure part of `WallapopClient.getItemHash` applied to the fetched
page text: locate the embedded `__NEXT_DATA__` script tag, parse its
content as JSON, and extract the identifier at
`props.pageProps.item.id`, failing (per the spec taxonomy, with a
`HashNotFoundError`) when the tag is absent, the content does not
parse, or the extracted value is falsy (`if (!hash) throw ...`). -/
def getItemHashFromHtml (html : String) : Except ApiError JVal :=
  match extractNextData html with
  | none => Except.error (ApiError.hashNotFound HashFailure.tagMissing)
  | some cap =>
    match parseJson cap with
    | none => Except.error (ApiError.hashNotFound HashFailure.invalidJson)
    | some j =>
      match nextDataPath j with
      | some v =>
        if jsTruthy (some v) then Except.ok v
        else Except.error (ApiError.hashNotFound HashFailure.idMissing)
      | none => Except.error (ApiError.hashNotFound HashFailure.idMissing)

/-- JavaScript `s.startsWith(p)`. -/
def jsStartsWith (s p : String) : Bool :=
  List.isPrefixOf p.toList s.toList

/-- URL selection at the top of `getItemHash`: inputs starting with
`http` are used verbatim, anything else is expanded to the canonical
item URL. -/
def itemFullUrl (urlOrSlug : String) : String :=
  if jsStartsWith urlOrSlug "http" then urlOrSlug
  else "https://es.wallapop.com/item/" ++ urlOrSlug

/-- `getItemHash` with the page fetch abstracted as a function from URL
to page text: the page fetched is exactly `itemFullUrl urlOrSlug`. -/
def getItemHashModel (urlOrSlug : String) (fetchPage : String → String) :
    Except ApiError JVal :=
  getItemHashFromHtml (fetchPage (itemFullUrl urlOrSlug))

/-- Modelled from the spec: the claim C7 predicate "starts with a URL
scheme", read as RFC 3986 (`ALPHA *( ALPHA / DIGIT / "+" / "-" / "." )
":"`); the source itself only tests the literal prefix `http`. -/
def specStartsWithUrlScheme (s : String) : Bool :=
  match s.toList with
  | [] => false
  | c :: rest => c.isAlpha && schemeTail rest
where
  /-- Scan scheme characters until a colon. -/
  schemeTail : List Char → Bool
    | [] => false
    | ':' :: _ => true
    | c :: rest => (c.isAlphanum || c = '+' || c = '-' || c = '.') && schemeTail rest

/-- `WallapopClient.chatUrl`. -/
def chatUrl (itemHash : String) : String :=
  "https://es.wallapop.com/app/chat?itemId=" ++ itemHash

/-! ## Instruction builder (`buildChatInstructions`, src/src/browser.ts) -/

/-- One browser-automation step (the `ChatStep` interface). -/
structure ChatStep where
  action : String
  url : Option String := none
  selector : Option String := none
  text : Option String := none
  submit : Option Bool := none
  note : String
deriving DecidableEq, Repr

/-- The `ChatInstructions` value returned by `buildChatInstructions`. -/
structure ChatInstructions where
  hash : String
  chatUrl : String
  message : String
  steps : List ChatStep
deriving DecidableEq, Repr

/-- `buildChatInstructions` from `src/src/browser.ts`. -/
def buildChatInstructions (itemHash : String) (message : String) : ChatInstructions :=
  let chatUrl := "https://es.wallapop.com/app/chat?itemId=" ++ itemHash
  { hash := itemHash
    chatUrl := chatUrl
    message := message
    steps := [
      { action := "navigate", url := some chatUrl,
        note := "Opens chat thread with seller for this item" },
      { action := "snapshot",
        note := "Wait for page load, find textbox \"Escribe un mensaje...\"" },
      { action := "click", selector := some "textbox \"Escribe un mensaje...\"",
        note := "Focus the message input" },
      { action := "type", text := some message, submit := some true,
        note := "Type message and press Enter to send" },
      { action := "snapshot",
        note := "Verify message appears in chat with timestamp" }] }

/-! ## Search query construction (`WallapopClient.search`) -/

/-- A value placed in the upstream query string (before the final
`String(v)` coercion done by `url.searchParams.set`). -/
inductive QVal where
  | num : ℚ → QVal
  | str : String → QVal
deriving DecidableEq, Repr

/-- The `SearchParams` interface (`src/unnamed/part_001`, types). -/
structure SearchParams where
  keywords : Option String := none
  minPrice : Option ℚ := none
  maxPrice : Option ℚ := none
  distance : Option ℚ := none
  latitude : Option ℚ := none
  longitude : Option ℚ := none
  categoryId : Option ℚ := none
  orderBy : Option String := none
  limit : Option ℚ := none
  nextPage : Option String := none
deriving DecidableEq, Repr

/-- Barcelona default latitude. -/
def DEFAULT_LAT : ℚ := 413891 / 10000

/-- Barcelona default longitude. -/
def DEFAULT_LNG : ℚ := 21606 / 10000

/-- Query entry present only when the option is set (`if (x != null)`). -/
def optNumEntry (k : String) : Option ℚ → List (String × QVal)
  | some q => [(k, QVal.num q)]
  | none => []

/-- Query entry present only when the option is a truthy string
(`if (x)` on a string field). -/
def optStrEntry (k : String) : Option String → List (String × QVal)
  | some s => if s = "" then [] else [(k, QVal.str s)]
  | none => []

/-- JavaScript truthiness test of an optional string. -/
def strTruthy : Option String → Bool
  | some s => !(s = "")
  | none => false

/-- The fixed entries the query object of `WallapopClient.search`
starts with: `step`, `source`, and `limit: params.limit ?? 20` — set
before, and independently of, the pagination branch. -/
def baseQuery (p : SearchParams) : List (String × QVal) :=
  [("step", QVal.num 1), ("source", QVal.str "keywords"),
   ("limit", QVal.num (p.limit.getD 20))]

/-- The upstream query constructed by `WallapopClient.search`
(`src/src/client.ts`): the fixed `baseQuery` entries; with a truthy
pagination cursor only `next_page` is added after them, otherwise each
filter field is added in source order (`latitude` and `longitude`
always, defaulted). -/
def buildSearchQuery (p : SearchParams) : List (String × QVal) :=
  if strTruthy p.nextPage then
    baseQuery p ++ [("next_page", QVal.str (p.nextPage.getD ""))]
  else
    baseQuery p ++ optStrEntry "keywords" p.keywords
      ++ optNumEntry "min_sale_price" p.minPrice
      ++ optNumEntry "max_sale_price" p.maxPrice
      ++ optNumEntry "distance" p.distance
      ++ [("latitude", QVal.num (p.latitude.getD DEFAULT_LAT)),
          ("longitude", QVal.num (p.longitude.getD DEFAULT_LNG))]
      ++ optNumEntry "category_id" p.categoryId
      ++ optStrEntry "order_by" p.orderBy

/-! ## Normalization layer (`simplifySearchItem`, `simplifyItemDetails`) -/

/-- The simplified search item (the `SearchItem` interface), with the
dynamic possibilities of the untyped source kept explicit: fields read
by plain property access are `Option JVal` (`none` = `undefined`),
fields produced by `||` defaulting are `JVal`. -/
structure SearchItem where
  id : Option JVal
  title : Option JVal
  price : Option JVal
  currency : JVal
  city : Option JVal
  distance : Option JVal
  slug : Option JVal
  url : String
  image : Option JVal
  sellerId : Option JVal
  reserved : JVal
  shippable : JVal
  createdAt : Option JVal

/-- The field reads of `simplifySearchItem` (evaluated when `item` is
not `null`). -/
def simplifySearchItemFields (item : JVal) : SearchItem :=
    { id := jGet (some item) "id"
      title := jGet (some item) "title"
      price := jGet (jGet (some item) "price") "amount"
      currency := jsOrJ (jGet (jGet (some item) "price") "currency") (JVal.str "EUR")
      city := jGet (jGet (some item) "location") "city"
      distance := jGet (some item) "distance"
      slug := jGet (some item) "web_slug"
      url := "https://es.wallapop.com/item/" ++ jsToString (jGet (some item) "web_slug")
      image := jGet (jGet (jIdx (jGet (some item) "images") 0) "urls") "medium"
      sellerId := jGet (some item) "user_id"
      reserved := jsOrJ (jGet (jGet (some item) "reserved") "flag") (JVal.bool false)
      shippable := jsOrJ (jGet (jGet (some item) "shipping") "user_allows_shipping")
        (JVal.bool false)
      createdAt := jGet (some item) "created_at" }

/-- `simplifySearchItem` (identical in `src/src/client.ts` and
`src/unnamed/part_001`).  Property access on a `null` array element
throws a `TypeError`, modelled as `Except.error`. -/
def simplifySearchItem (item : JVal) : Except Unit SearchItem :=
  if item.isNull then Except.error () else Except.ok (simplifySearchItemFields item)

/-- The nested seller record of `ItemDetails`. -/
structure SellerRef where
  id : Option JVal
  name : Option JVal

/-- The simplified item details (the `ItemDetails` interface), shared
output shape of the two parallel implementations; `price` is
`Option JVal` so that the legacy implementation, which can leave it
`undefined`, has the same type. -/
structure ItemDetails where
  id : Option JVal
  title : Option JVal
  description : Option JVal
  price : Option JVal
  currency : JVal
  city : Option JVal
  seller : SellerRef
  slug : Option JVal
  url : String
  images : Option JVal
  reserved : JVal
  sold : JVal
  counters : JVal
  createdAt : Option JVal

/-- `typeof x === 'object'` — true for `null`, arrays and objects. -/
def typeofIsObject : Option JVal → Bool
  | some JVal.null => true
  | some (JVal.arr _) => true
  | some (JVal.obj _) => true
  | _ => false

/-- The title/description resolution
`typeof x === 'object' ? x.original : x`: plain member access
`x.original` throws a `TypeError` when `x` is `null` (in JavaScript
`typeof null === 'object'`). -/
def tsWrapResolve (x : Option JVal) : Except Unit (Option JVal) :=
  if typeofIsObject x then
    match x with
    | some JVal.null => Except.error ()
    | some (JVal.obj fs) => Except.ok (objLookup fs "original")
    | some (JVal.arr _) => Except.ok none
    | _ => Except.error ()
  else Except.ok x

/-- Fields shared verbatim by the two `simplifyItemDetails`
implementations, given the already-resolved title/description and the
price chosen by the version at hand. -/
def itemDetailsCommon (raw : JVal) (title desc price : Option JVal) : ItemDetails :=
  { id := jGet (some raw) "id"
    title := title
    description := desc
    price := price
    currency := jsOrJ (jGet (jGet (jGet (some raw) "price") "cash") "currency")
      (jsOrJ (jGet (jGet (some raw) "price") "currency") (JVal.str "EUR"))
    city := jGet (jGet (some raw) "location") "city"
    seller := { id := jGet (jGet (some raw) "user") "id"
                name := jGet (jGet (some raw) "user") "micro_name" }
    slug := jGet (some raw) "web_slug"
    url := "https://es.wallapop.com/item/" ++ jsToString (jGet (some raw) "web_slug")
    images := jsLength (some (jsOrJ (jGet (some raw) "images") (JVal.arr [])))
    reserved := jsOrJ (jGet (jGet (some raw) "reserved") "flag") (JVal.bool false)
    sold := jsOrJ (jGet (jGet (some raw) "sold") "flag") (JVal.bool false)
    counters := jsOrJ (jGet (some raw) "counters") JVal.null
    createdAt := jGet (some raw) "creation_date" }

/-- `simplifyItemDetails` from `src/src/client.ts` (TypeScript version):
`price = raw.price?.cash?.amount ?? raw.price?.amount ?? 0`. -/
def simplifyItemDetails (raw : JVal) : Except Unit ItemDetails :=
  if raw.isNull then Except.error () else do
  let title ← tsWrapResolve (jGet (some raw) "title")
  let desc ← tsWrapResolve (jGet (some raw) "description")
  let price := jsNullish (jGet (jGet (jGet (some raw) "price") "cash") "amount")
    (jsNullish (jGet (jGet (some raw) "price") "amount") (some (JVal.num 0)))
  Except.ok (itemDetailsCommon raw title desc price)

/-- `simplifyItemDetails` from `src/unnamed/part_001` (legacy
JavaScript version): `price = raw.price?.cash?.amount ??
raw.price?.amount` — no final `?? 0`. -/
def simplifyItemDetailsLegacy (raw : JVal) : Except Unit ItemDetails :=
  if raw.isNull then Except.error () else do
  let title ← tsWrapResolve (jGet (some raw) "title")
  let desc ← tsWrapResolve (jGet (some raw) "description")
  let price := jsNullish (jGet (jGet (jGet (some raw) "price") "cash") "amount")
    (jGet (jGet (some raw) "price") "amount")
  Except.ok (itemDetailsCommon raw title desc price)

/-! ## The search response (`WallapopClient.search`, after the fetch) -/

/-- The `SearchResult` value returned by `client.search`. -/
structure SearchResult where
  items : List SearchItem
  nextPage : JVal
  total : Nat

/-- `Array.prototype.map` over a fallible element function: the first
thrown exception aborts the whole map. -/
def mapExcept (f : JVal → Except Unit SearchItem) :
    List JVal → Except Unit (List SearchItem)
  | [] => Except.ok []
  | x :: xs => do
    let y ← f x
    let ys ← mapExcept f xs
    Except.ok (y :: ys)

/-- `data?.data?.section?.payload?.items || []`. -/
def searchItemsJson (data : JVal) : JVal :=
  jsOrJ (jGet (jGet (jGet (jGet (some data) "data") "section") "payload") "items")
    (JVal.arr [])

/-- The post-fetch part of `WallapopClient.search`: extract the raw item
list, map `simplifySearchItem` over it (`.map` on a non-array throws),
and assemble the response; `total` is the length of the raw item
list. -/
def searchFromData (data : JVal) : Except Unit SearchResult :=
  match searchItemsJson data with
  | JVal.arr l => do
    let items ← mapExcept simplifySearchItem l
    Except.ok { items := items
                nextPage := jsOrJ (jGet (jGet (some data) "meta") "next_page") JVal.null
                total := l.length }
  | _ => Except.error ()

/-! ## Composite `POST /api/search-and-contact` (src/src/server.ts) -/

/-- The request body of `POST /api/search-and-contact`. -/
structure CompositeBody where
  query : Option String := none
  message : Option String := none
  maxPrice : Option ℚ := none
  minPrice : Option ℚ := none
  limit : Option ℚ := none
  distance : Option ℚ := none
  lat : Option ℚ := none
  lng : Option ℚ := none
deriving DecidableEq, Repr

/-- The `SearchParams` the composite handler passes to `client.search`:
`limit: Math.min(limit, 20)` with the destructuring default
`limit = 5`. -/
def compositeSearchParams (b : CompositeBody) : SearchParams :=
  { keywords := b.query
    maxPrice := b.maxPrice
    minPrice := b.minPrice
    limit := some (min (b.limit.getD 5) 20)
    distance := b.distance
    latitude := b.lat
    longitude := b.lng }

/-- The per-item follow-up annotation added by the composite handler. -/
structure ChatFlow where
  step1 : String
  step2 : String
deriving DecidableEq, Repr

/-- One item of the composite response: the search item spread together
with its `chatFlow` annotation. -/
structure ContactItem where
  item : SearchItem
  chatFlow : ChatFlow

/-- The annotation built for one surviving item:
two follow-up API calls, with a literal `<hash>` placeholder instead of
a resolved hash. -/
def annotateContact (message : String) (item : SearchItem) : ContactItem :=
  { item := item
    chatFlow :=
      { step1 := "GET /api/items/hash?slug=" ++ jsToString item.slug
        step2 := "POST /api/chat \x7b itemHash: \"<hash>\", message: \"" ++
          message ++ "\" \x7d" } }

/-- The composite response shape. -/
structure CompositeResponse where
  items : List ContactItem
  total : Nat
  nextPage : JVal

/-- The response assembly of `POST /api/search-and-contact`: filter out
reserved items, annotate each survivor, and report `total` as the
length of the filtered list. -/
def compositeResponse (results : SearchResult) (message : String) : CompositeResponse :=
  let available := results.items.filter (fun i => !(jsTruthy (some i.reserved)))
  let items := available.map (annotateContact message)
  { items := items
    total := items.length
    nextPage := results.nextPage }

/-! ## Concrete inputs used by witnesses and counterexamples -/

/-- A well-formed embedded payload carrying the hash. -/
def capOk : String :=
  "\x7b\"props\":\x7b\"pageProps\":\x7b\"item\":\x7b\"id\":\"qzmmv570nlzv\"\x7d\x7d\x7d\x7d"

/-- A page embedding `capOk` in the `__NEXT_DATA__` script tag. -/
def nextDataHtmlOk : String :=
  "<html><body><script id=\"__NEXT_DATA__\" type=\"application/json\">" ++
    capOk ++ "</script></body></html>"

/-- The parse of `capOk`. -/
def jOk : JVal :=
  JVal.obj [("props", JVal.obj [("pageProps", JVal.obj [("item",
    JVal.obj [("id", JVal.str "qzmmv570nlzv")])])])]

/-- A payload whose identifier is present at the fixed path but empty. -/
def capEmptyId : String :=
  "\x7b\"props\":\x7b\"pageProps\":\x7b\"item\":\x7b\"id\":\"\"\x7d\x7d\x7d\x7d"

/-- A page embedding `capEmptyId` in the `__NEXT_DATA__` script tag. -/
def emptyIdHtml : String :=
  "<script id=\"__NEXT_DATA__\" type=\"application/json\">" ++ capEmptyId ++ "</script>"

/-- The parse of `capEmptyId`. -/
def jEmptyId : JVal :=
  JVal.obj [("props", JVal.obj [("pageProps", JVal.obj [("item",
    JVal.obj [("id", JVal.str "")])])])]

/-- Search parameters carrying a pagination cursor together with filter
fields and a page-size limit. -/
def cursorParams : SearchParams :=
  { keywords := some "mesa", minPrice := some 5, limit := some 7,
    nextPage := some "CURSOR" }

/-- A raw search response whose single item has an empty (present but
falsy) currency. -/
def searchDataEmptyCurrency : JVal :=
  JVal.obj [("data", JVal.obj [("section", JVal.obj [("payload", JVal.obj [("items",
    JVal.arr [JVal.obj [("price", JVal.obj [("currency", JVal.str "")])]])])])])]

/-- Two raw search items: one with a currency, one without. -/
def searchItemsTwo : List JVal :=
  [JVal.obj [("price", JVal.obj [("currency", JVal.str "GBP")])], JVal.obj []]

/-- A raw search response containing `searchItemsTwo`. -/
def searchDataTwo : JVal :=
  JVal.obj [("data", JVal.obj [("section", JVal.obj [("payload", JVal.obj [("items",
    JVal.arr searchItemsTwo)])])])]

/-- A raw search response with one item. -/
def dataOne : JVal :=
  JVal.obj [("data", JVal.obj [("section", JVal.obj [("payload", JVal.obj [("items",
    JVal.arr [JVal.obj [("id", JVal.str "1")]])])])])]

/-- A normalized, non-reserved search item. -/
def itemFreeW : SearchItem :=
  { id := some (JVal.str "1232652380"), title := none, price := none,
    currency := JVal.str "EUR", city := none, distance := none,
    slug := some (JVal.str "mesa-redonda-1232652380"),
    url := "https://es.wallapop.com/item/mesa-redonda-1232652380",
    image := none, sellerId := none, reserved := JVal.bool false,
    shippable := JVal.bool false, createdAt := none }

/-- A normalized, reserved search item. -/
def itemReservedW : SearchItem :=
  { itemFreeW with reserved := JVal.bool true, slug := some (JVal.str "silla-99") }

/-- A search result holding one reserved and one available item. -/
def resultsW : SearchResult :=
  { items := [itemReservedW, itemFreeW], nextPage := JVal.null, total := 2 }

/-- A composite request body asking for 50 items. -/
def bodyW : CompositeBody := { limit := some 50 }

/-! ## Helper lemmas -/

/-- `Except` bind on a success. -/
theorem except_bind_ok {α β ε : Type} (a : α) (f : α → Except ε β) :
    (Except.ok a >>= f) = f a := rfl

/-- `Except` bind on a failure. -/
theorem except_bind_error {α β ε : Type} (e : ε) (f : α → Except ε β) :
    ((Except.error e : Except ε α) >>= f) = Except.error e := rfl

/-- `mapExcept` preserves length on success. -/
theorem mapExcept_length {f : JVal → Except Unit SearchItem} :
    ∀ {l : List JVal} {out : List SearchItem},
      mapExcept f l = Except.ok out → out.length = l.length := by
  intro l
  induction l with
  | nil => intro out h; simp [mapExcept] at h; simp [← h]
  | cons x xs ih =>
    intro out h
    cases hfx : f x with
    | error e => simp [mapExcept, hfx, except_bind_error] at h
    | ok y =>
      cases hxs : mapExcept f xs with
      | error e => simp [mapExcept, hfx, hxs, except_bind_ok, except_bind_error] at h
      | ok ys =>
        simp [mapExcept, hfx, hxs, except_bind_ok] at h
        simp [← h, ih hxs]

/-- On success, the element of the output at an index is the successful
image of the element of the input at that index. -/
theorem mapExcept_get {f : JVal → Except Unit SearchItem} :
    ∀ {l : List JVal} {out : List SearchItem},
      mapExcept f l = Except.ok out →
      ∀ i (hj : i < l.length) (hi : i < out.length),
        f (l.get ⟨i, hj⟩) = Except.ok (out.get ⟨i, hi⟩) := by
  intro l
  induction l with
  | nil => intro out _ i hj; exact absurd hj (by simp)
  | cons x xs ih =>
    intro out h i hj hi
    cases hfx : f x with
    | error e => simp [mapExcept, hfx, except_bind_error] at h
    | ok y =>
      cases hxs : mapExcept f xs with
      | error e => simp [mapExcept, hfx, hxs, except_bind_ok, except_bind_error] at h
      | ok ys =>
        simp [mapExcept, hfx, hxs, except_bind_ok] at h
        subst h
        cases i with
        | zero => simpa using hfx
        | succ n =>
          exact ih hxs n (by simpa using hj) (by simpa using hi)

/-- `mapExcept` succeeds when every element does. -/
theorem mapExcept_ok_of_forall {f : JVal → Except Unit SearchItem} :
    ∀ {l : List JVal}, (∀ j ∈ l, ∃ s, f j = Except.ok s) →
      ∃ out, mapExcept f l = Except.ok out := by
  intro l
  induction l with
  | nil => intro _; exact ⟨[], rfl⟩
  | cons x xs ih =>
    intro hall
    obtain ⟨y, hy⟩ := hall x (by simp)
    obtain ⟨ys, hys⟩ := ih (fun j hj => hall j (by simp [hj]))
    refine ⟨y :: ys, ?_⟩
    simp [mapExcept, hy, hys, except_bind_ok]

/-- `jsOrJ` spelt as a case analysis. -/
theorem jsOrJ_eq_match (a : Option JVal) (b : JVal) :
    jsOrJ a b = match a with
      | some c => if jsTruthy (some c) then c else b
      | none => b := by
  cases a <;> rfl

/-- `simplifySearchItem` succeeds on exactly the non-`null` values. -/
theorem simplifySearchItem_ok {j : JVal} (h : j.isNull = false) :
    simplifySearchItem j = Except.ok (simplifySearchItemFields j) := by
  simp [simplifySearchItem, h]

/-- `tsWrapResolve` only throws on the JSON `null`. -/
theorem tsWrapResolve_ok {x : Option JVal} (h : x ≠ some JVal.null) :
    ∃ y, tsWrapResolve x = Except.ok y := by
  match x with
  | none => exact ⟨none, rfl⟩
  | some JVal.null => exact absurd rfl h
  | some (JVal.bool b) => exact ⟨_, rfl⟩
  | some (JVal.num q) => exact ⟨_, rfl⟩
  | some (JVal.str s) => exact ⟨_, rfl⟩
  | some (JVal.arr l) => exact ⟨_, rfl⟩
  | some (JVal.obj fs) => exact ⟨_, rfl⟩

/-- Every entry produced by `optNumEntry` carries its key. -/
theorem optNumEntry_key {k k' : String} {v : QVal} {o : Option ℚ}
    (h : (k', v) ∈ optNumEntry k o) : k' = k := by
  cases o with
  | none => simp [optNumEntry] at h
  | some q =>
    simp [optNumEntry] at h
    exact h.1

/-- Every entry produced by `optStrEntry` carries its key. -/
theorem optStrEntry_key {k k' : String} {v : QVal} {o : Option String}
    (h : (k', v) ∈ optStrEntry k o) : k' = k := by
  cases o with
  | none => simp [optStrEntry] at h
  | some s =>
    by_cases hs : s = ""
    · simp [optStrEntry, hs] at h
    · simp [optStrEntry, hs] at h
      exact h.1

/-- A `limit` entry of the fixed part of the query carries
`params.limit ?? 20`. -/
theorem mem_baseQuery_limit {p : SearchParams} {v : QVal}
    (h : ("limit", v) ∈ baseQuery p) : v = QVal.num (p.limit.getD 20) := by
  simp [baseQuery] at h
  exact h

/-- The only `limit` entry of the upstream query is the one set from
`params.limit ?? 20`. -/
theorem mem_buildSearchQuery_limit {p : SearchParams} {v : QVal}
    (h : ("limit", v) ∈ buildSearchQuery p) :
    v = QVal.num (p.limit.getD 20) := by
  unfold buildSearchQuery at h
  by_cases hnp : strTruthy p.nextPage
  · rw [if_pos hnp] at h
    rcases List.mem_append.1 h with h | h
    · exact mem_baseQuery_limit h
    · simp at h
  · rw [if_neg hnp] at h
    rcases List.mem_append.1 h with h | h
    · rcases List.mem_append.1 h with h | h
      · rcases List.mem_append.1 h with h | h
        · rcases List.mem_append.1 h with h | h
          · rcases List.mem_append.1 h with h | h
            · rcases List.mem_append.1 h with h | h
              · rcases List.mem_append.1 h with h | h
                · exact mem_baseQuery_limit h
                · exact absurd (optStrEntry_key h) (by simp)
              · exact absurd (optNumEntry_key h) (by simp)
            · exact absurd (optNumEntry_key h) (by simp)
          · exact absurd (optNumEntry_key h) (by simp)
        · simp at h
      · exact absurd (optNumEntry_key h) (by simp)
    · exact absurd (optStrEntry_key h) (by simp)

/-! ## Claims -/

/-- C2 (confirmed): for every hash and message, `buildChatInstructions`
returns exactly 5 steps in the fixed order navigate, wait-for-render
(`snapshot`), click, type-and-submit (`type` with `submit = true`),
wait-for-render (`snapshot`); the navigate step's `url` and the
result's `chatUrl` both equal the chat base URL with `?itemId=<hash>`
appended; and the type step carries exactly the given message with
`submit = true`. -/
theorem buildChatInstructions_five_steps (itemHash message : String) :
    ∃ s1 s2 s3 s4 s5,
      (buildChatInstructions itemHash message).steps = [s1, s2, s3, s4, s5] ∧
      s1.action = "navigate" ∧
      s1.url = some ("https://es.wallapop.com/app/chat?itemId=" ++ itemHash) ∧
      (buildChatInstructions itemHash message).chatUrl =
        "https://es.wallapop.com/app/chat?itemId=" ++ itemHash ∧
      s2.action = "snapshot" ∧
      s3.action = "click" ∧
      s4.action = "type" ∧ s4.text = some message ∧ s4.submit = some true ∧
      s5.action = "snapshot" :=
  ⟨_, _, _, _, _, rfl, rfl, rfl, rfl, rfl, rfl, rfl, rfl, rfl, rfl⟩

/-- C7 counterexample: `ftp://example.org/a` starts with a URL scheme
(RFC 3986) but is not used verbatim — it is expanded to the canonical
item URL; conversely `httpfoo` does not start with a URL scheme but is
used verbatim.  The source tests the literal prefix `http`, not "a URL
scheme". -/
theorem itemFullUrl_scheme_mismatch :
    specStartsWithUrlScheme "ftp://example.org/a" = true ∧
    itemFullUrl "ftp://example.org/a" =
      "https://es.wallapop.com/item/ftp://example.org/a" ∧
    itemFullUrl "ftp://example.org/a" ≠ "ftp://example.org/a" ∧
    specStartsWithUrlScheme "httpfoo" = false ∧
    itemFullUrl "httpfoo" = "httpfoo" := by
  refine ⟨rfl, by decide, by decide, rfl, by decide⟩

/-- C7 (corrected): the page `getItemHash` consults is chosen by the
literal prefix `http` (which covers the `http` and `https` schemes):
an input starting with `http` is fetched verbatim, any other input —
even one starting with a different URL scheme — is expanded to
`https://es.wallapop.com/item/<input>`. -/
theorem getItemHash_url_choice (urlOrSlug : String) (fetchPage : String → String) :
    (jsStartsWith urlOrSlug "http" = true →
      getItemHashModel urlOrSlug fetchPage = getItemHashFromHtml (fetchPage urlOrSlug)) ∧
    (jsStartsWith urlOrSlug "http" = false →
      getItemHashModel urlOrSlug fetchPage =
        getItemHashFromHtml (fetchPage ("https://es.wallapop.com/item/" ++ urlOrSlug))) := by
  constructor <;> intro h <;> simp [getItemHashModel, itemFullUrl, h]

/-- Witness for C7: a full URL is consulted verbatim. -/
theorem getItemHash_url_choice_witness :
    getItemHashModel "https://es.wallapop.com/item/mesa-1" (fun _ => "") =
      getItemHashFromHtml "" :=
  (getItemHash_url_choice "https://es.wallapop.com/item/mesa-1" (fun _ => "")).1 rfl

/-- C8 (confirmed): the two parallel `simplifyItemDetails`
implementations are not extensionally equal: on a payload missing every
price field, the TypeScript one defaults the price to `0`, the legacy
JavaScript one leaves it `undefined`. -/
theorem simplifyItemDetails_divergence :
    (∃ d, simplifyItemDetails (JVal.obj []) = Except.ok d ∧
      d.price = some (JVal.num 0)) ∧
    (∃ d, simplifyItemDetailsLegacy (JVal.obj []) = Except.ok d ∧
      d.price = none) ∧
    simplifyItemDetails (JVal.obj []) ≠ simplifyItemDetailsLegacy (JVal.obj []) := by
  refine ⟨⟨_, rfl, rfl⟩, ⟨_, rfl, rfl⟩, ?_⟩
  intro h
  have h2 : (some (JVal.num 0) : Option JVal) = none :=
    congrArg (fun e => match e with
      | Except.ok d => d.price
      | Except.error _ => none) h
  exact Option.noConfusion h2

/-- C1 counterexample: a page whose `__NEXT_DATA__` tag is present,
parses as JSON, and carries the identifier at the fixed path — as the
empty string — on which `getItemHash` nevertheless fails: a fourth
failure case beyond the three the claim allows, and a failure where the
claim requires the identifier to be returned. -/
theorem getItemHash_presentEmptyId :
    extractNextData emptyIdHtml = some capEmptyId ∧
    parseJson capEmptyId = some jEmptyId ∧
    nextDataPath jEmptyId = some (JVal.str "") ∧
    getItemHashFromHtml emptyIdHtml =
      Except.error (ApiError.hashNotFound HashFailure.idMissing) ∧
    getItemHashFromHtml emptyIdHtml ≠ Except.ok (JVal.str "") := by
  refine ⟨rfl, rfl, rfl, rfl, ?_⟩
  intro h
  rw [show getItemHashFromHtml emptyIdHtml =
    Except.error (ApiError.hashNotFound HashFailure.idMissing) from rfl] at h
  exact Except.noConfusion h

/-- C1 (corrected): `getItemHash` applied to a fetched page fails only
with a `HashNotFoundError` (never another error kind), and it fails
exactly when the `__NEXT_DATA__` tag is absent, when the captured text
is not valid JSON, or when the value at `props.pageProps.item.id` is
absent **or falsy** (the source tests `!hash`, so a present-but-empty
identifier also fails); when the tag is present, parses, and the
identifier is truthy, that exact value is returned. -/
theorem getItemHash_characterization (html : String) :
    (∀ e, getItemHashFromHtml html = Except.error e →
      ∃ r, e = ApiError.hashNotFound r) ∧
    (extractNextData html = none →
      getItemHashFromHtml html =
        Except.error (ApiError.hashNotFound HashFailure.tagMissing)) ∧
    (∀ cap, extractNextData html = some cap → parseJson cap = none →
      getItemHashFromHtml html =
        Except.error (ApiError.hashNotFound HashFailure.invalidJson)) ∧
    (∀ cap j, extractNextData html = some cap → parseJson cap = some j →
      jsTruthy (nextDataPath j) = false →
      getItemHashFromHtml html =
        Except.error (ApiError.hashNotFound HashFailure.idMissing)) ∧
    (∀ cap j v, extractNextData html = some cap → parseJson cap = some j →
      nextDataPath j = some v → jsTruthy (some v) = true →
      getItemHashFromHtml html = Except.ok v) := by
  refine ⟨?_, ?_, ?_, ?_, ?_⟩
  · intro e he
    cases hE : extractNextData html with
    | none =>
      simp [getItemHashFromHtml, hE] at he
      exact ⟨_, he.symm⟩
    | some cap =>
      cases hP : parseJson cap with
      | none =>
        simp [getItemHashFromHtml, hE, hP] at he
        exact ⟨_, he.symm⟩
      | some j =>
        cases hN : nextDataPath j with
        | none =>
          simp [getItemHashFromHtml, hE, hP, hN] at he
          exact ⟨_, he.symm⟩
        | some v =>
          by_cases ht : jsTruthy (some v)
          · simp [getItemHashFromHtml, hE, hP, hN, ht] at he
          · simp [getItemHashFromHtml, hE, hP, hN, ht] at he
            exact ⟨_, he.symm⟩
  · intro hE
    simp [getItemHashFromHtml, hE]
  · intro cap hE hP
    simp [getItemHashFromHtml, hE, hP]
  · intro cap j hE hP ht
    cases hN : nextDataPath j with
    | none => simp [getItemHashFromHtml, hE, hP, hN]
    | some v =>
      rw [hN] at ht
      simp [getItemHashFromHtml, hE, hP, hN, ht]
  · intro cap j v hE hP hN ht
    simp [getItemHashFromHtml, hE, hP, hN, ht]

/-- Witness for C1: on a well-formed page the hash is extracted. -/
theorem getItemHash_characterization_witness :
    getItemHashFromHtml nextDataHtmlOk = Except.ok (JVal.str "qzmmv570nlzv") :=
  (getItemHash_characterization nextDataHtmlOk).2.2.2.2 capOk jOk
    (JVal.str "qzmmv570nlzv") rfl rfl rfl rfl

/-- C3 counterexample: with a pagination cursor present, the upstream
query still contains the page-size `limit` entry — set before the
cursor branch from the caller's `limit` — contradicting the claim that
no page-size limit is sent alongside the cursor. -/
theorem cursor_query_contains_limit :
    ("next_page", QVal.str "CURSOR") ∈ buildSearchQuery cursorParams ∧
    ("limit", QVal.num 7) ∈ buildSearchQuery cursorParams := by
  constructor <;> decide

/-- C3 (corrected): when a (truthy) pagination cursor is present, the
upstream query is exactly the fixed `step` and `source` markers, the
page-size `limit` (always sent, from `params.limit ?? 20`), and the
cursor — no keywords, price bounds, coordinates, distance, category or
sort order, but the page-size limit IS sent alongside the cursor. -/
theorem cursor_query_shape (p : SearchParams) (c : String)
    (hc : p.nextPage = some c) (hne : c ≠ "") :
    buildSearchQuery p =
      [("step", QVal.num 1), ("source", QVal.str "keywords"),
       ("limit", QVal.num (p.limit.getD 20)), ("next_page", QVal.str c)] := by
  simp [buildSearchQuery, baseQuery, strTruthy, hc, hne]

/-- Witness for C3: the cursor query of `cursorParams`. -/
theorem cursor_query_shape_witness :
    buildSearchQuery cursorParams =
      [("step", QVal.num 1), ("source", QVal.str "keywords"),
       ("limit", QVal.num 7), ("next_page", QVal.str "CURSOR")] :=
  cursor_query_shape cursorParams "CURSOR" rfl (by decide)

/-- C4 counterexample: `simplifyItemDetails` is not total on JSON
objects: on `\x7b"title": null\x7d` the read `raw.title.original`
throws a `TypeError` (in JavaScript `typeof null === 'object'`). -/
theorem simplifyItemDetails_nullTitle_throws :
    (JVal.obj [("title", JVal.null)]).isNull = false ∧
    simplifyItemDetails (JVal.obj [("title", JVal.null)]) = Except.error () :=
  ⟨rfl, rfl⟩

/-- C4 (corrected): `simplifyItemDetails` succeeds on every JSON object
whose `title` and `description` are not the JSON `null` (on a `null`
in either it throws); in the result, a missing price yields `0`,
missing counters yield `null`, and a missing image list counts `0`
images. -/
theorem simplifyItemDetails_total (fs : List (String × JVal))
    (ht : objLookup fs "title" ≠ some JVal.null)
    (hd : objLookup fs "description" ≠ some JVal.null) :
    ∃ d, simplifyItemDetails (JVal.obj fs) = Except.ok d ∧
      (objLookup fs "price" = none → d.price = some (JVal.num 0)) ∧
      (objLookup fs "counters" = none → d.counters = JVal.null) ∧
      (objLookup fs "images" = none → d.images = some (JVal.num 0)) := by
  obtain ⟨ty, hty⟩ := tsWrapResolve_ok
    (x := jGet (some (JVal.obj fs)) "title") (by simpa [jGet] using ht)
  obtain ⟨dy, hdy⟩ := tsWrapResolve_ok
    (x := jGet (some (JVal.obj fs)) "description") (by simpa [jGet] using hd)
  have hmain : simplifyItemDetails (JVal.obj fs) =
      Except.ok (itemDetailsCommon (JVal.obj fs) ty dy
        (jsNullish (jGet (jGet (jGet (some (JVal.obj fs)) "price") "cash") "amount")
          (jsNullish (jGet (jGet (some (JVal.obj fs)) "price") "amount")
            (some (JVal.num 0))))) := by
    simp [simplifyItemDetails, JVal.isNull, hty, hdy, except_bind_ok]
  refine ⟨_, hmain, ?_, ?_, ?_⟩
  · intro hp
    simp [itemDetailsCommon, jGet, hp, jsNullish]
  · intro hc
    simp [itemDetailsCommon, jGet, hc, jsOrJ]
  · intro hi
    simp [itemDetailsCommon, jGet, hi, jsOrJ, jsLength]

/-- Witness for C4: the empty JSON object maps to the documented
defaults. -/
theorem simplifyItemDetails_total_witness :
    ∃ d, simplifyItemDetails (JVal.obj []) = Except.ok d ∧
      (objLookup [] "price" = none → d.price = some (JVal.num 0)) ∧
      (objLookup [] "counters" = none → d.counters = JVal.null) ∧
      (objLookup [] "images" = none → d.images = some (JVal.num 0)) :=
  simplifyItemDetails_total [] (by simp [objLookup]) (by simp [objLookup])

/-- C9 (confirmed): the page-size limit the composite
`POST /api/search-and-contact` handler sends upstream is
`min(requested, 20)` — at most 20 for every request — and defaults to
`min(5, 20) = 5` when the caller supplies no limit. -/
theorem composite_limit_cap (b : CompositeBody) :
    ("limit", QVal.num (min (b.limit.getD 5) 20)) ∈
      buildSearchQuery (compositeSearchParams b) ∧
    (∀ q, ("limit", QVal.num q) ∈ buildSearchQuery (compositeSearchParams b) →
      q ≤ 20) ∧
    (b.limit = none →
      ("limit", QVal.num 5) ∈ buildSearchQuery (compositeSearchParams b)) := by
  have h1 : ("limit", QVal.num (min (b.limit.getD 5) 20)) ∈
      buildSearchQuery (compositeSearchParams b) := by
    simp [buildSearchQuery, baseQuery, compositeSearchParams, strTruthy]
  refine ⟨h1, ?_, ?_⟩
  · intro q hq
    have h := mem_buildSearchQuery_limit hq
    simp [compositeSearchParams] at h
    rw [h]
    exact min_le_right _ _
  · intro hnone
    have h2 := h1
    rw [hnone] at h2
    norm_num at h2
    exact h2

/-- Witness for C9: a requested limit of 50 is capped to 20. -/
theorem composite_limit_cap_witness :
    ("limit", QVal.num (min (bodyW.limit.getD 5) 20)) ∈
      buildSearchQuery (compositeSearchParams bodyW) ∧
    min (bodyW.limit.getD 5) 20 ≤ 20 :=
  ⟨(composite_limit_cap bodyW).1,
    (composite_limit_cap bodyW).2.1 _ (composite_limit_cap bodyW).1⟩

/-- C10 (confirmed): the `total` field of a search response equals the
length of the `items` array returned in that same response (the raw
page count, preserved by normalization), and the composite response's
`total` equals the length of its own (reserved-filtered) item list —
never an upstream count of all matching items. -/
theorem total_is_returned_count :
    (∀ data r, searchFromData data = Except.ok r → r.total = r.items.length) ∧
    (∀ results message,
      (compositeResponse results message).total =
        (compositeResponse results message).items.length ∧
      (compositeResponse results message).total =
        (results.items.filter (fun i => !(jsTruthy (some i.reserved)))).length) := by
  constructor
  · intro data r h
    unfold searchFromData at h
    cases hitems : searchItemsJson data <;> rw [hitems] at h
    · simp at h
    · simp at h
    · simp at h
    · simp at h
    · case arr l =>
        have h' : (mapExcept simplifySearchItem l >>= fun items =>
            Except.ok { items := items
                        nextPage := jsOrJ (jGet (jGet (some data) "meta") "next_page")
                          JVal.null
                        total := l.length }) = Except.ok r := h
        cases hmap : mapExcept simplifySearchItem l with
        | error e =>
          rw [hmap, except_bind_error] at h'
          simp at h'
        | ok out =>
          rw [hmap, except_bind_ok] at h'
          have h2 := Except.ok.inj h'
          rw [← h2]
          simp [mapExcept_length hmap]
    · simp at h
  · intro results message
    exact ⟨rfl, by simp [compositeResponse]⟩

/-- Witness for C10: a one-item response reports `total = 1 =
items.length`. -/
theorem total_is_returned_count_witness :
    ∃ r, searchFromData dataOne = Except.ok r ∧ r.total = r.items.length :=
  ⟨_, rfl, total_is_returned_count.1 dataOne _ rfl⟩

/-- C5 counterexample: a raw item whose currency is present but empty
is normalized to the default `EUR` (the source uses `||`, which also
replaces falsy present values), contradicting the claim that the output
currency "equals the raw currency" whenever the raw currency is
present. -/
theorem search_currency_empty :
    jGet (jGet (some (JVal.obj [("price", JVal.obj [("currency", JVal.str "")])]))
        "price") "currency" = some (JVal.str "") ∧
    (∃ r, searchFromData searchDataEmptyCurrency = Except.ok r ∧
      r.items.map SearchItem.currency = [JVal.str "EUR"]) ∧
    JVal.str "EUR" ≠ JVal.str "" := by
  refine ⟨rfl, ⟨_, rfl, rfl⟩, ?_⟩
  intro h
  have h2 : "EUR" = "" := JVal.str.inj h
  exact absurd h2 (by decide)

/-- C5 (corrected): for every upstream search response whose extracted
raw item list has N non-`null` entries, normalization succeeds and
yields exactly N `SearchItem` values, and each output currency equals
the raw item's currency when that value is truthy, and the fixed
default `EUR` when it is absent **or falsy** (e.g. empty). -/
theorem search_normalization (data : JVal) (l : List JVal)
    (hitems : searchItemsJson data = JVal.arr l)
    (hnn : ∀ j ∈ l, j.isNull = false) :
    ∃ r, searchFromData data = Except.ok r ∧
      r.items.length = l.length ∧
      r.total = l.length ∧
      ∀ i (hi : i < r.items.length) (hj : i < l.length),
        (r.items.get ⟨i, hi⟩).currency =
          match jGet (jGet (some (l.get ⟨i, hj⟩)) "price") "currency" with
          | some c => if jsTruthy (some c) then c else JVal.str "EUR"
          | none => JVal.str "EUR" := by
  obtain ⟨out, hout⟩ := mapExcept_ok_of_forall
    (fun j hj => ⟨simplifySearchItemFields j, simplifySearchItem_ok (hnn j hj)⟩)
  have hlen := mapExcept_length hout
  refine ⟨{ items := out
            nextPage := jsOrJ (jGet (jGet (some data) "meta") "next_page") JVal.null
            total := l.length }, ?_, hlen, rfl, ?_⟩
  · unfold searchFromData
    rw [hitems]
    have hstep : (mapExcept simplifySearchItem l >>= fun items =>
        Except.ok ({ items := items
                     nextPage := jsOrJ (jGet (jGet (some data) "meta") "next_page")
                       JVal.null
                     total := l.length } : SearchResult)) =
        Except.ok ({ items := out
                     nextPage := jsOrJ (jGet (jGet (some data) "meta") "next_page")
                       JVal.null
                     total := l.length } : SearchResult) := by
      rw [hout, except_bind_ok]
    exact hstep
  · intro i hi hj
    have hget := mapExcept_get hout i hj hi
    rw [simplifySearchItem_ok (hnn _ (l.get_mem i hj))] at hget
    have h2 : simplifySearchItemFields (l.get ⟨i, hj⟩) = out.get ⟨i, hi⟩ :=
      Except.ok.inj hget
    show (out.get ⟨i, hi⟩).currency = _
    rw [← h2]
    show jsOrJ (jGet (jGet (some (l.get ⟨i, hj⟩)) "price") "currency")
      (JVal.str "EUR") = _
    rw [jsOrJ_eq_match]

/-- Witness for C5: a two-item response normalizes to two items with
the expected currencies. -/
theorem search_normalization_witness :
    ∃ r, searchFromData searchDataTwo = Except.ok r ∧
      r.items.length = searchItemsTwo.length ∧
      r.total = searchItemsTwo.length ∧
      ∀ i (hi : i < r.items.length) (hj : i < searchItemsTwo.length),
        (r.items.get ⟨i, hi⟩).currency =
          match jGet (jGet (some (searchItemsTwo.get ⟨i, hj⟩)) "price") "currency" with
          | some c => if jsTruthy (some c) then c else JVal.str "EUR"
          | none => JVal.str "EUR" :=
  search_normalization searchDataTwo searchItemsTwo rfl (by
    intro j hj
    simp [searchItemsTwo] at hj
    rcases hj with h | h <;> subst h <;> rfl)

/-- C6 (confirmed): every item of the composite search-and-contact
output has a falsy reserved flag (reserved items are filtered out), and
each surviving item is annotated with the two-step follow-up
instruction — resolve the hash via `GET /api/items/hash`, then request
chat instructions via `POST /api/chat` with a literal `<hash>`
placeholder — rather than a resolved hash. -/
theorem composite_filters_reserved (results : SearchResult) (message : String) :
    ∀ a ∈ (compositeResponse results message).items,
      jsTruthy (some a.item.reserved) = false ∧
      a.chatFlow.step1 = "GET /api/items/hash?slug=" ++ jsToString a.item.slug ∧
      a.chatFlow.step2 = "POST /api/chat \x7b itemHash: \"<hash>\", message: \"" ++
        message ++ "\" \x7d" := by
  intro a ha
  simp [compositeResponse, List.mem_map, List.mem_filter] at ha
  obtain ⟨i, ⟨hmem, hres⟩, rfl⟩ := ha
  exact ⟨by simpa using hres, rfl, rfl⟩

/-- Witness for C6: the available item of `resultsW` survives with its
two-step annotation. -/
theorem composite_filters_reserved_witness :
    jsTruthy (some (annotateContact "Hola!" itemFreeW).item.reserved) = false ∧
    (annotateContact "Hola!" itemFreeW).chatFlow.step1 =
      "GET /api/items/hash?slug=" ++
        jsToString (annotateContact "Hola!" itemFreeW).item.slug ∧
    (annotateContact "Hola!" itemFreeW).chatFlow.step2 =
      "POST /api/chat \x7b itemHash: \"<hash>\", message: \"" ++ "Hola!" ++
        "\" \x7d" :=
  composite_filters_reserved resultsW "Hola!" (annotateContact "Hola!" itemFreeW)
    (by simp [compositeResponse, resultsW, itemReservedW, itemFreeW, jsTruthy])
